import Mathlib

/-!
Shallow embedding of the `feather` generated-crate runtime core
(`crates/generated/src/lib.rs`): the `ItemStack` value type and the
`Inventory` handle over an `InventoryBacking` of slots.

Machine integers (`u32`) are modelled as `Nat` with explicit reduction
modulo `2^32` exactly where the Rust code performs unchecked (wrapping)
arithmetic; `checked_sub` is modelled by its defining condition.
Rust methods that mutate `&mut self` are modelled as functions returning
the new state (paired with the Rust return value when there is one).
-/

/-- The modulus of Rust's `u32` type. -/
def u32Mod : Nat := 2 ^ 32

/-- Modelled from the spec: the generated `item` module is not part of the
runtime core sources; the catalog is an external, closed set of item tokens,
each exposing an optional static durability (`Item::durability()`), absence
meaning "not damageable".  We model an item token by exactly that static
datum. -/
structure Item where
  durability : Option Nat
  deriving DecidableEq, Repr

/-- `ItemStack` from `lib.rs`: a catalog item token, a `u32` count, and
optional accumulated damage. -/
structure ItemStack where
  item : Item
  count : Nat
  /-- Damage to the item, if it's damageable. -/
  damage : Option Nat
  deriving DecidableEq, Repr

namespace ItemStack

/-- `ItemStack::new(item, count)`: constructs with `damage: None`. -/
def new (item : Item) (count : Nat) : ItemStack :=
  { item := item, count := count, damage := none }

/-- `ItemStack::add(&mut self, count) -> u32`: `self.count += count`
(unchecked `u32` addition, hence wrapping modulo `2^32`), returning the new
count.  Result: (returned new count, updated stack). -/
def add (s : ItemStack) (count : Nat) : Nat × ItemStack :=
  let n := (s.count + count) % u32Mod
  (n, { s with count := n })

/-- `ItemStack::remove(&mut self, count) -> bool`: `self.count.checked_sub(count)`;
on `None` returns `false` leaving the stack untouched, on `Some` stores the
difference and returns `true`.  Result: (returned bool, updated stack). -/
def remove (s : ItemStack) (count : Nat) : Bool × ItemStack :=
  if count ≤ s.count then (true, { s with count := s.count - count })
  else (false, s)

/-- `ItemStack::set_item(&mut self, item)`: direct overwrite. -/
def set_item (s : ItemStack) (item : Item) : ItemStack :=
  { s with item := item }

/-- `ItemStack::set_count(&mut self, count)`: direct overwrite. -/
def set_count (s : ItemStack) (count : Nat) : ItemStack :=
  { s with count := count }

/-- `ItemStack::damage(&mut self, amount) -> bool` (renamed here because the
Rust method shares its name with the `damage` field):  if `self.damage` is
`Some`, accumulates `amount` into it (unchecked `u32` addition) and returns
whether the new damage reached the item's durability when the item has one,
`false` otherwise; if `self.damage` is `None`, does nothing and returns
`false`.  Result: (returned bool, updated stack). -/
def applyDamage (s : ItemStack) (amount : Nat) : Bool × ItemStack :=
  match s.damage with
  | some d =>
      let d' := (d + amount) % u32Mod
      let broken :=
        match s.item.durability with
        | some durability => decide (durability ≤ d')
        | none => false
      (broken, { s with damage := some d' })
  | none => (false, s)

/-- Iterated `damage(1)` calls: the stack after `n` successive calls. -/
def iterDamage (s : ItemStack) : Nat → ItemStack
  | 0 => s
  | n + 1 => (applyDamage (iterDamage s n) 1).2

end ItemStack

/-- Modelled from the spec: the generated `inventory` module (not under the
runtime core sources) defines the `Area` enumeration of logical inventory
regions; `lib.rs` names `Storage`, `Hotbar`, `Helmet`, `Offhand` and
`CraftingInput` as examples. -/
inductive Area where
  | storage
  | hotbar
  | helmet
  | offhand
  | craftingInput
  deriving DecidableEq, Repr

/-- Modelled from the spec: the generated `inventory` module defines
`InventoryBacking`, which owns one flat, fixed-length sequence of slots plus
an immutable offset table mapping each defined `Area` to a contiguous
sub-range (offset and length) of that flat array; every declared range lies
within the array. -/
structure InventoryBacking (σ : Type) where
  slots : List σ
  layout : Area → Option (Nat × Nat)
  layout_wf : ∀ a p, layout a = some p → p.1 + p.2 ≤ slots.length

/-- Modelled from the spec: `InventoryBacking::area_slice(area)` returns the
contiguous sub-range of slots belonging to `area`, or absence if the backing
does not define that area at all. -/
def InventoryBacking.area_slice {σ : Type} (b : InventoryBacking σ) (a : Area) :
    Option (List σ) :=
  (b.layout a).map fun p => (b.slots.drop p.1).take p.2

/-- `Inventory` from `lib.rs`: a handle backed by an `Arc<InventoryBacking<Slot>>`.
`Arc` pointer identity is modelled by an explicit allocation identifier
carried with the backing; cloning a handle copies the identifier (a
reference-count bump, not a fresh allocation). -/
structure Inventory (σ : Type) where
  backingId : Nat
  backing : InventoryBacking σ

namespace Inventory

/-- `Inventory::ptr_eq(&self, other) -> bool`: `Arc::ptr_eq` on the two
backings, i.e. identity of the backing allocation. -/
def ptr_eq {σ : Type} (h₁ h₂ : Inventory σ) : Bool :=
  h₁.backingId == h₂.backingId

/-- `Inventory::item(&self, area, slot)`: `self.backing.area_slice(area)?`
then `slice.get(slot).map(Mutex::lock)`; the lock grants access to the slot
itself, so the model returns the slot at that index when it exists. -/
def item {σ : Type} (inv : Inventory σ) (area : Area) (slot : Nat) : Option σ :=
  (inv.backing.area_slice area).bind fun slice => slice[slot]?

/-- `Inventory::new_handle(&self) -> Inventory`: the same as `clone()` —
another handle to the same backing. -/
def new_handle {σ : Type} (inv : Inventory σ) : Inventory σ := inv

end Inventory

/-- A concrete layout used to instantiate the inventory theorems: a single
defined area (`Hotbar`) occupying offset 1, length 2 of the flat array. -/
def demoLayout : Area → Option (Nat × Nat)
  | Area.hotbar => some (1, 2)
  | _ => none

/-- A concrete three-slot backing over `demoLayout`. -/
def demoBacking : InventoryBacking Nat where
  slots := [10, 20, 30]
  layout := demoLayout
  layout_wf := by
    intro a p h
    cases a <;> simp [demoLayout] at h
    simp [← h]

/-- A concrete inventory handle over `demoBacking`. -/
def demoInv : Inventory Nat := ⟨0, demoBacking⟩

/-- C1: `remove(c)` is all-or-nothing — if `c` exceeds the current count it
returns `false` and leaves the stack (item, count and damage) completely
unchanged; otherwise it returns `true` and only the count changes, to the
old count minus `c`. -/
theorem remove_all_or_nothing (s : ItemStack) (c : Nat) :
    (s.count < c → s.remove c = (false, s)) ∧
    (c ≤ s.count → s.remove c = (true, { s with count := s.count - c })) := by
  refine ⟨fun h => ?_, fun h => ?_⟩ <;> simp [ItemStack.remove, h]

/-- Witness for C1 at a concrete stack of count 5: removing 7 fails and
leaves the stack untouched; removing 3 succeeds and leaves count 2. -/
theorem remove_all_or_nothing_witness :
    ItemStack.remove ⟨⟨some 10⟩, 5, none⟩ 7 = (false, ⟨⟨some 10⟩, 5, none⟩) ∧
    ItemStack.remove ⟨⟨some 10⟩, 5, none⟩ 3 = (true, ⟨⟨some 10⟩, 2, none⟩) :=
  ⟨(remove_all_or_nothing ⟨⟨some 10⟩, 5, none⟩ 7).1 (by decide),
   (remove_all_or_nothing ⟨⟨some 10⟩, 5, none⟩ 3).2 (by decide)⟩

/-- C4: `add(c)` stores `(count + c) mod 2^32` (silent `u32` wrap-around,
not a checked failure), returns exactly the stored new count, and leaves
item and damage unchanged; below the overflow threshold this is plain
addition. -/
theorem add_returns_new_count (s : ItemStack) (c : Nat) :
    (s.add c).1 = (s.count + c) % u32Mod ∧
    (s.add c).2 = { s with count := (s.add c).1 } ∧
    (s.count + c < u32Mod → (s.add c).1 = s.count + c) :=
  ⟨rfl, rfl, fun h => Nat.mod_eq_of_lt h⟩

/-- Witness for C4: adding 2 to a stack of count 3 returns 5; adding 1 to a
stack of count `2^32 - 1` wraps to 0. -/
theorem add_returns_new_count_witness :
    (ItemStack.add ⟨⟨none⟩, 3, none⟩ 2).1 = 3 + 2 ∧
    (ItemStack.add ⟨⟨none⟩, 4294967295, none⟩ 1).1 = (4294967295 + 1) % u32Mod :=
  ⟨(add_returns_new_count ⟨⟨none⟩, 3, none⟩ 2).2.2 (by norm_num [u32Mod]),
   (add_returns_new_count ⟨⟨none⟩, 4294967295, none⟩ 1).1⟩

/-- C7: `new(i, c)` constructs a stack with damage absent, whose `item()`
accessor returns `i` and whose `count()` accessor returns `c` (the accessors
are the pure field projections). -/
theorem new_constructs (i : Item) (c : Nat) :
    (ItemStack.new i c).item = i ∧ (ItemStack.new i c).count = c ∧
    (ItemStack.new i c).damage = none :=
  ⟨rfl, rfl, rfl⟩

/-- C9: `set_item(i)` overwrites only the item field and `set_count(c)`
overwrites only the count field; the other two fields are untouched and
neither operation can fail. -/
theorem set_item_set_count_frame (s : ItemStack) (i : Item) (c : Nat) :
    s.set_item i = { s with item := i } ∧
    s.set_count c = { s with count := c } ∧
    (s.set_item i).count = s.count ∧ (s.set_item i).damage = s.damage ∧
    (s.set_count c).item = s.item ∧ (s.set_count c).damage = s.damage :=
  ⟨rfl, rfl, rfl, rfl, rfl, rfl⟩

/-- C2: when the stack tracks damage (`damage = some d`), `damage(a)`
accumulates `a` into the damage field (u32 addition) and returns `true`
exactly when the accumulated damage has reached or exceeded the item's
static durability; when the stack does not track damage it changes nothing
and returns `false`. -/
theorem damage_accumulates (s : ItemStack) (a : Nat) :
    (∀ d, s.damage = some d →
      (s.applyDamage a).2 = { s with damage := some ((d + a) % u32Mod) } ∧
      ((s.applyDamage a).1 = true ↔
        ∃ durability, s.item.durability = some durability ∧
          durability ≤ (d + a) % u32Mod)) ∧
    (s.damage = none → s.applyDamage a = (false, s)) := by
  constructor
  · intro d hd
    cases h : s.item.durability <;>
      simp [ItemStack.applyDamage, hd, h]
  · intro hd
    simp [ItemStack.applyDamage, hd]

/-- Witness for C2: a stack with damage 2 on an item of durability 5 damaged
by 3 becomes broken with damage 5; a stack with no damage field is returned
unchanged with `false`. -/
theorem damage_accumulates_witness :
    (ItemStack.applyDamage ⟨⟨some 5⟩, 1, some 2⟩ 3).2 =
      ⟨⟨some 5⟩, 1, some ((2 + 3) % u32Mod)⟩ ∧
    ((ItemStack.applyDamage ⟨⟨some 5⟩, 1, some 2⟩ 3).1 = true ↔
      ∃ durability, (⟨some 5⟩ : Item).durability = some durability ∧
        durability ≤ (2 + 3) % u32Mod) ∧
    ItemStack.applyDamage ⟨⟨some 5⟩, 1, none⟩ 3 = (false, ⟨⟨some 5⟩, 1, none⟩) :=
  ⟨((damage_accumulates ⟨⟨some 5⟩, 1, some 2⟩ 3).1 2 rfl).1,
   ((damage_accumulates ⟨⟨some 5⟩, 1, some 2⟩ 3).1 2 rfl).2,
   (damage_accumulates ⟨⟨some 5⟩, 1, none⟩ 3).2 rfl⟩

/-- C10: damage tracking is decided solely by the presence of the `damage`
field — with `damage = some d` but no catalog durability, `damage(a)` still
accumulates into the field yet returns `false`; the call returns `true` only
when the damage field and the durability are both present and the
accumulated damage has reached the durability. -/
theorem damage_requires_both (s : ItemStack) (a : Nat) :
    (∀ d, s.damage = some d → s.item.durability = none →
      s.applyDamage a = (false, { s with damage := some ((d + a) % u32Mod) })) ∧
    ((s.applyDamage a).1 = true ↔
      ∃ d durability, s.damage = some d ∧ s.item.durability = some durability ∧
        durability ≤ (d + a) % u32Mod) := by
  constructor
  · intro d hd hdur
    simp [ItemStack.applyDamage, hd, hdur]
  · cases hd : s.damage with
    | none => simp [ItemStack.applyDamage, hd]
    | some d =>
      cases h : s.item.durability <;>
        simp [ItemStack.applyDamage, hd, h]

/-- Witness for C10: an item with no durability but a present damage field
accumulates damage 1 + 2 = 3 while returning `false`. -/
theorem damage_requires_both_witness :
    ItemStack.applyDamage ⟨⟨none⟩, 4, some 1⟩ 2 =
      (false, ⟨⟨none⟩, 4, some ((1 + 2) % u32Mod)⟩) :=
  (damage_requires_both ⟨⟨none⟩, 4, some 1⟩ 2).1 1 rfl rfl

/-- Counterexample to C3 as stated: a stack created with `ItemStack::new`
has `damage = None`, so for a damageable item of durability `D = 1` the
`D`-th (first) `damage(1)` call returns `false`, where the claim requires
`true` from the `D`-th call onward. -/
theorem new_damage_counterexample :
    (⟨some 1⟩ : Item).durability = some 1 ∧
    ((ItemStack.new ⟨some 1⟩ 1).applyDamage 1).1 = false := by
  constructor
  · rfl
  · simp [ItemStack.new, ItemStack.applyDamage]

/-- After `n` iterated `damage(1)` calls starting from a present damage
field at 0, the damage field holds `n mod 2^32` and item and count are
untouched. -/
theorem iterDamage_closed_form (it : Item) (c n : Nat) :
    ItemStack.iterDamage ⟨it, c, some 0⟩ n = ⟨it, c, some (n % u32Mod)⟩ := by
  induction n with
  | zero => simp [ItemStack.iterDamage]
  | succ n ih =>
    simp only [ItemStack.iterDamage, ih, ItemStack.applyDamage]
    simp [Nat.mod_add_mod]

/-- C3 amended: a stack created with `ItemStack::new` never tracks damage,
so every `damage` call returns `false` and mutates nothing; once the damage
field is initialised to 0, for a damageable item of durability `D` the
`n`-th `damage(1)` call (`1 ≤ n < 2^32`) returns `true` iff `D ≤ n` — i.e.
`false` for the first `D - 1` calls and `true` from the `D`-th call on
(up to the `u32` wrap of the damage counter). -/
theorem damage_monotonicity_amended (it : Item) (c D n : Nat)
    (hD : it.durability = some D) (h1 : 1 ≤ n) (h2 : n < u32Mod) :
    ((ItemStack.iterDamage ⟨it, c, some 0⟩ (n - 1)).applyDamage 1).1 =
      decide (D ≤ n) ∧
    (∀ a, (ItemStack.new it c).applyDamage a = (false, ItemStack.new it c)) := by
  constructor
  · rw [iterDamage_closed_form]
    have hn1 : n - 1 < u32Mod := by omega
    have hmod : ((n - 1) % u32Mod + 1) % u32Mod = n := by
      rw [Nat.mod_eq_of_lt hn1, Nat.mod_eq_of_lt (by omega)]
      omega
    simp [ItemStack.applyDamage, hD, hmod]
  · intro a
    simp [ItemStack.new, ItemStack.applyDamage]

/-- Witness for amended C3 at durability 2: the 1st call returns `false`,
the 2nd returns `true`, and on a `new` stack `damage(7)` is a no-op
returning `false`. -/
theorem damage_monotonicity_amended_witness :
    ((ItemStack.iterDamage ⟨⟨some 2⟩, 1, some 0⟩ 0).applyDamage 1).1 =
      decide (2 ≤ 1) ∧
    ((ItemStack.iterDamage ⟨⟨some 2⟩, 1, some 0⟩ 1).applyDamage 1).1 =
      decide (2 ≤ 2) ∧
    (ItemStack.new ⟨some 2⟩ 1).applyDamage 7 = (false, ItemStack.new ⟨some 2⟩ 1) :=
  ⟨(damage_monotonicity_amended ⟨some 2⟩ 1 2 1 rfl (by norm_num)
      (by norm_num [u32Mod])).1,
   (damage_monotonicity_amended ⟨some 2⟩ 1 2 2 rfl (by norm_num)
      (by norm_num [u32Mod])).1,
   (damage_monotonicity_amended ⟨some 2⟩ 1 2 2 rfl (by norm_num)
      (by norm_num [u32Mod])).2 7⟩

/-- Counterexample to C6 as stated: with count `2^32 - 1`, `c1 = 1` and
`c2 = 2^32 - 1` we have `c2 ≤ count + c1`, yet after `add(1)` the count has
wrapped to 0, so `remove(c2)` returns `false` and the count stays 0 — not
`true` with count `count + c1 - c2 = 1` as the claim requires. -/
theorem add_remove_roundtrip_counterexample :
    4294967295 ≤ (ItemStack.mk ⟨none⟩ 4294967295 none).count + 1 ∧
    ((ItemStack.mk ⟨none⟩ 4294967295 none).add 1).2.remove 4294967295 =
      (false, (ItemStack.mk ⟨none⟩ 4294967295 none).add 1 |>.2) ∧
    ((ItemStack.mk ⟨none⟩ 4294967295 none).add 1).2.count = 0 := by
  refine ⟨by norm_num, ?_, ?_⟩ <;>
    norm_num [ItemStack.add, ItemStack.remove, u32Mod]

/-- C6 amended: when the intermediate sum does not overflow `u32`
(`s.count + c1 < 2^32`) and `c2 ≤ s.count + c1`, `add(c1)` followed by
`remove(c2)` succeeds and leaves the count at `s.count + c1 - c2`; and
removing more than the current count always returns `false` and leaves the
stack unchanged. -/
theorem add_remove_roundtrip_amended (s : ItemStack) (c₁ c₂ : Nat)
    (hle : c₂ ≤ s.count + c₁) (hnw : s.count + c₁ < u32Mod) :
    ((s.add c₁).2.remove c₂).1 = true ∧
    ((s.add c₁).2.remove c₂).2.count = s.count + c₁ - c₂ ∧
    (∀ c, s.count < c → s.remove c = (false, s)) := by
  have hcnt : (s.add c₁).2 = { s with count := s.count + c₁ } := by
    simp [ItemStack.add, Nat.mod_eq_of_lt hnw]
  refine ⟨?_, ?_, ?_⟩
  · simp [hcnt, ItemStack.remove, hle]
  · simp [hcnt, ItemStack.remove, hle]
  · intro c hc
    simp [ItemStack.remove, hc]

/-- Witness for amended C6: count 3, add 4, remove 5 gives `true` and final
count 2; removing 9 from a count-3 stack fails and changes nothing. -/
theorem add_remove_roundtrip_amended_witness :
    (((ItemStack.mk ⟨none⟩ 3 none).add 4).2.remove 5).1 = true ∧
    (((ItemStack.mk ⟨none⟩ 3 none).add 4).2.remove 5).2.count = 3 + 4 - 5 ∧
    (ItemStack.mk ⟨none⟩ 3 none).remove 9 = (false, ItemStack.mk ⟨none⟩ 3 none) :=
  ⟨(add_remove_roundtrip_amended ⟨⟨none⟩, 3, none⟩ 4 5 (by norm_num)
      (by norm_num [u32Mod])).1,
   (add_remove_roundtrip_amended ⟨⟨none⟩, 3, none⟩ 4 5 (by norm_num)
      (by norm_num [u32Mod])).2.1,
   (add_remove_roundtrip_amended ⟨⟨none⟩, 3, none⟩ 4 5 (by norm_num)
      (by norm_num [u32Mod])).2.2 9 (by norm_num)⟩

/-- C5: `item(area, index)` is `none` when the backing does not define the
area, and `none` when the index is at or beyond the area's declared length;
for an in-range index it returns exactly the flat-array slot at the area's
offset plus the index, and that lookup always succeeds (no out-of-bounds
access). -/
theorem item_bounds {σ : Type} (inv : Inventory σ) (a : Area) (i : Nat) :
    (inv.backing.layout a = none → inv.item a i = none) ∧
    (∀ off len, inv.backing.layout a = some (off, len) →
      (len ≤ i → inv.item a i = none) ∧
      (i < len → inv.item a i = inv.backing.slots[off + i]? ∧
        (inv.item a i).isSome = true)) := by
  constructor
  · intro h
    simp [Inventory.item, InventoryBacking.area_slice, h]
  · intro off len h
    have hwf := inv.backing.layout_wf a (off, len) h
    constructor
    · intro hi
      have hni : ¬ i < len := by omega
      simp [Inventory.item, InventoryBacking.area_slice, h,
        List.getElem?_take, hni]
    · intro hi
      have heq : inv.item a i = inv.backing.slots[off + i]? := by
        simp [Inventory.item, InventoryBacking.area_slice, h,
          List.getElem?_take, List.getElem?_drop, hi]
      refine ⟨heq, ?_⟩
      rw [heq]
      rw [List.getElem?_eq_getElem (by simp at hwf ⊢; omega)]
      simp

/-- Witness for C5 on the concrete three-slot inventory: an undefined area
yields `none`, an out-of-range index in the defined area yields `none`, and
slot 1 of the hotbar is exactly flat slot `1 + 1`. -/
theorem item_bounds_witness :
    demoInv.item Area.storage 0 = none ∧
    demoInv.item Area.hotbar 2 = none ∧
    demoInv.item Area.hotbar 1 = demoInv.backing.slots[1 + 1]? ∧
    (demoInv.item Area.hotbar 1).isSome = true :=
  ⟨(item_bounds demoInv Area.storage 0).1 rfl,
   ((item_bounds demoInv Area.hotbar 2).2 1 2 rfl).1 (by norm_num),
   (((item_bounds demoInv Area.hotbar 1).2 1 2 rfl).2 (by norm_num)).1,
   (((item_bounds demoInv Area.hotbar 1).2 1 2 rfl).2 (by norm_num)).2⟩

/-- C8: `ptr_eq` holds between a handle and the handle produced by its
`new_handle`, and in general `ptr_eq` is `true` exactly when the two handles
share the same underlying backing allocation (identity, not structural
equality of contents). -/
theorem ptr_eq_iff_same_backing {σ : Type} (h₁ h₂ : Inventory σ) :
    h₁.ptr_eq h₁.new_handle = true ∧
    (h₁.ptr_eq h₂ = true ↔ h₁.backingId = h₂.backingId) := by
  constructor
  · simp [Inventory.ptr_eq, Inventory.new_handle]
  · simp [Inventory.ptr_eq]
